import Mathlib

/-!
# Verification of the node-builder registry (`src/parser/processors.js`)

A shallow embedding of the CST→AST builder registry.  The upstream walker
passes each grammar node's already-transformed children to the builder
registered for the node's kind; children are either raw token text (a JS
string) or previously built AST records/arrays.  We model the JS values
flowing through the builders with `JSVal`, and every builder as a function
`List JSVal → Except JSErr JSVal`, mirroring the JS functions' positional
parameters (a missing argument is `undefined`, as in JS).

JS numbers are modelled by exact rationals (`Rat`); every numeric literal
appearing in the properties below is exactly representable as a binary
floating-point value, so the model and IEEE semantics agree on them.
-/

mutual

/-- A JavaScript runtime value, as far as the processors manipulate them:
raw token strings, AST records (objects with ordered fields), arrays,
primitives, and compiled regular-expression objects.  `vnan` stands for the
floating NaN produced by a failed numeric coercion. -/
inductive JSVal where
  | vundef : JSVal
  | vnull : JSVal
  | vbool : Bool → JSVal
  | vnum : Rat → JSVal
  | vnan : JSVal
  | vbigint : Int → JSVal
  | vstr : String → JSVal
  | vlist : JSArr → JSVal
  | vobj : JSFields → JSVal
  | vregex : String → String → JSVal
deriving DecidableEq, Repr

/-- The spine of a JS array value. -/
inductive JSArr where
  | anil : JSArr
  | acons : JSVal → JSArr → JSArr
deriving DecidableEq, Repr

/-- The ordered field list of a JS object value. -/
inductive JSFields where
  | fnil : JSFields
  | fcons : String → JSVal → JSFields → JSFields
deriving DecidableEq, Repr

end

open JSVal

/-- Builds the array spine from a Lean list. -/
def JSArr.ofList : List JSVal → JSArr
  | [] => JSArr.anil
  | x :: xs => JSArr.acons x (JSArr.ofList xs)

/-- Builds an object's field spine from a Lean association list. -/
def JSFields.ofList : List (String × JSVal) → JSFields
  | [] => JSFields.fnil
  | (k, v) :: fs => JSFields.fcons k v (JSFields.ofList fs)

/-- A JS array value from a Lean list of elements. -/
def jarr (xs : List JSVal) : JSVal := vlist (JSArr.ofList xs)

/-- A JS object value from an ordered list of fields. -/
def jobj (fs : List (String × JSVal)) : JSVal := vobj (JSFields.ofList fs)

/-- Errors a builder invocation can surface.  `typeErr` and `parseErr` model
the host engine's TypeError and SyntaxError (the latter is what `eval` throws
on a malformed literal).  `unsupportedNodeKind`, `invalidLiteral` and
`malformedSequence` are the error taxonomy named by the specification; they
are declared here so that statements about the specification's claims can be
expressed, whether or not the code ever produces them. -/
inductive JSErr where
  | typeErr : String → JSErr
  | parseErr : String → JSErr
  | unsupportedNodeKind : String → JSErr
  | invalidLiteral : String → JSErr
  | malformedSequence : JSErr
deriving DecidableEq, Repr

/-! ## Generic JS semantics helpers -/

/-- The `i`-th positional argument of a JS function call, `undefined` when
the caller supplied fewer arguments (as in JS parameter binding). -/
def argD (children : List JSVal) (i : Nat) : JSVal :=
  children.getD i vundef

/-- Whether `s` contains `pat` as a contiguous substring (character-wise). -/
def listContainsSub (pat : List Char) : List Char → Bool
  | [] => pat.isEmpty
  | c :: rest => pat.isPrefixOf (c :: rest) || listContainsSub pat rest

/-- `strContainsSub s pat` models the JS regular-expression test for the
fixed literal `pat` occurring anywhere inside `s`. -/
def strContainsSub (s pat : String) : Bool :=
  listContainsSub pat.toList s.toList

/-- Models JS ToString on the values that can reach a string coercion inside
the processors (regular-expression `test` on a child, template-free token
text).  Grammar-produced call sites only ever coerce strings; the remaining
cases follow the host semantics where they are simple (`undefined`, `null`,
booleans, objects as `[object Object]`), and elide the host's numeric and
array formatting, which no modelled call site reaches. -/
def jsToString : JSVal → String
  | vstr s => s
  | vundef => "undefined"
  | vnull => "null"
  | vbool true => "true"
  | vbool false => "false"
  | vnum q => toString q
  | vnan => "NaN"
  | vbigint i => toString i
  | vlist _ => ""
  | vobj _ => "[object Object]"
  | vregex p f => "/" ++ p ++ "/" ++ f

/-- Field update on an ordered field list: overwrite the first binding of
`k` if present, otherwise append the new binding at the end — exactly the
observable effect of a JS property assignment on a plain object. -/
def setField : JSFields → String → JSVal → JSFields
  | JSFields.fnil, k, v => JSFields.fcons k v JSFields.fnil
  | JSFields.fcons k0 v0 rest, k, v =>
    if k0 = k then JSFields.fcons k0 v rest
    else JSFields.fcons k0 v0 (setField rest k v)

/-- Models the JS property assignment `target.init = v` performed by the
`VariableDeclaration` builder.  Assigning to a property of `undefined` or
`null` throws a TypeError; assigning to a property of an object updates it
in place (here: returns the object's new contents — in the source the very
same object is both the received child and the record pushed into the
result, so the returned contents are the child's post-call state);
assigning to a property of another primitive is silently ignored in sloppy
mode, which is the mode of this CommonJS module. -/
def setInit : JSVal → JSVal → Except JSErr JSVal
  | vundef, _ => Except.error (JSErr.typeErr "Cannot set properties of undefined")
  | vnull, _ => Except.error (JSErr.typeErr "Cannot set properties of null")
  | vobj fields, v => Except.ok (vobj (setField fields "init" v))
  | other, _ => Except.ok other

/-- Field lookup on an ordered field list (first binding wins). -/
def lookupField : JSFields → String → Option JSVal
  | JSFields.fnil, _ => none
  | JSFields.fcons k0 v0 rest, k => if k0 = k then some v0 else lookupField rest k

/-- Whether a value is an object carrying field `k`. -/
def hasField (v : JSVal) (k : String) : Bool :=
  match v with
  | vobj fields => (lookupField fields k).isSome
  | _ => false

/-- Models a JS property read `target.k` (used by the destructuring pattern
`{ id }` in the `FunctionDeclaration` builder): reading from `undefined` or
`null` throws a TypeError, a missing property on an object reads as
`undefined`, and property reads on other primitives yield `undefined` for
the names the processors use. -/
def getProp : JSVal → String → Except JSErr JSVal
  | vundef, k => Except.error (JSErr.typeErr ("Cannot read properties of undefined (reading " ++ k ++ ")"))
  | vnull, k => Except.error (JSErr.typeErr ("Cannot read properties of null (reading " ++ k ++ ")"))
  | vobj fields, k => Except.ok ((lookupField fields k).getD vundef)
  | _, _ => Except.ok vundef

/-! ## Literal decoding primitives

The source obtains literal values through host primitives: `BigInt(...)`
and unary `+` for numbers, and `eval(raw)` for string and regular-expression
tokens.  The definitions below model those primitives on the token shapes
the grammar can hand to the processors; each failure carries the host's
SyntaxError message.  (The opening and closing brace characters are spelled
through their code points 123 and 125.) -/

/-- Opening brace character. -/
def lbraceChar : Char := Char.ofNat 123

/-- Closing brace character. -/
def rbraceChar : Char := Char.ofNat 125

/-- Single-quote character. -/
def squoteChar : Char := Char.ofNat 39

/-- The numeric value of a hexadecimal digit. -/
def hexVal? (c : Char) : Option Nat :=
  if c.isDigit then some (c.toNat - 48)
  else if 'a' ≤ c ∧ c ≤ 'f' then some (c.toNat - 87)
  else if 'A' ≤ c ∧ c ≤ 'F' then some (c.toNat - 55)
  else none

/-- The value of a list of decimal digits. -/
def digitsVal (ds : List Char) : Nat :=
  ds.foldl (fun a c => a * 10 + (c.toNat - 48)) 0

/-- The value of a list of hexadecimal digits. -/
def hexDigitsVal (ds : List Char) : Nat :=
  ds.foldl (fun a c => a * 16 + ((hexVal? c).getD 0)) 0

/-- Models `BigInt(string)` on the integer numerals the grammar tokenizes:
the empty string converts to `0`, decimal and `0x`-prefixed hexadecimal
numerals to their value, and anything else throws a SyntaxError. -/
def jsBigInt (s : String) : Except String Int :=
  match s.toList with
  | [] => Except.ok 0
  | '0' :: 'x' :: rest =>
    if rest ≠ [] ∧ rest.all (fun c => (hexVal? c).isSome) then
      Except.ok (hexDigitsVal rest)
    else Except.error ("Cannot convert " ++ s ++ " to a BigInt")
  | '0' :: 'X' :: rest =>
    if rest ≠ [] ∧ rest.all (fun c => (hexVal? c).isSome) then
      Except.ok (hexDigitsVal rest)
    else Except.error ("Cannot convert " ++ s ++ " to a BigInt")
  | cs =>
    if cs.all Char.isDigit then Except.ok (digitsVal cs)
    else Except.error ("Cannot convert " ++ s ++ " to a BigInt")

deriving instance DecidableEq for Except

/-- Models the unary `+` string-to-number coercion on the plain decimal
tokens the grammar produces (`digits`, `digits.digits`, `.digits`,
`digits.`); the empty string coerces to `0`, and any other shape (which no
grammar number token takes) is left to `none`, i.e. NaN. -/
def jsToNumber (s : String) : Option Rat :=
  match s.toList with
  | [] => some 0
  | cs =>
    let ip := cs.takeWhile (fun c => c != '.')
    match cs.dropWhile (fun c => c != '.') with
    | [] =>
      if ip.all Char.isDigit then some (mkRat (digitsVal ip) 1)
      else none
    | _ :: fp =>
      if (ip ≠ [] ∨ fp ≠ []) ∧ ¬fp.contains '.' ∧
          ip.all Char.isDigit ∧ fp.all Char.isDigit then
        some (mkRat (digitsVal ip * 10 ^ fp.length + digitsVal fp) (10 ^ fp.length))
      else none

/-- Reads exactly `k` hexadecimal digits, returning their value and the
remaining input. -/
def readHex : Nat → Nat → List Char → Option (Nat × List Char)
  | 0, acc, cs => some (acc, cs)
  | k + 1, acc, c :: rest =>
    match hexVal? c with
    | some d => readHex k (acc * 16 + d) rest
    | none => none
  | _ + 1, _, [] => none

/-- Reads the hexadecimal digits of a braced Unicode escape up to the
closing brace; at least one digit is required. -/
def readBracedHex : Nat → Nat → Bool → List Char → Option (Nat × List Char)
  | 0, _, _, _ => none
  | _ + 1, _, _, [] => none
  | fuel + 1, acc, seen, c :: rest =>
    if c = rbraceChar then (if seen then some (acc, rest) else none)
    else
      match hexVal? c with
      | some d => readBracedHex fuel (acc * 16 + d) true rest
      | none => none

/-- Greedily reads up to `k` further octal digits of a legacy octal escape. -/
def readOctMax : Nat → Nat → List Char → Nat × List Char
  | 0, acc, cs => (acc, cs)
  | _ + 1, acc, [] => (acc, [])
  | k + 1, acc, c :: rest =>
    if '0' ≤ c ∧ c ≤ '7' then readOctMax k (acc * 8 + (c.toNat - 48)) rest
    else (acc, c :: rest)

/-- The character with code point `n` (code points outside the scalar range
fall back to the null character; the grammar's tokens stay inside it). -/
def scalarChar (n : Nat) : Char := Char.ofNat n

/-- One step of string-literal body decoding: decodes characters until the
closing quote, handling the escape grammar `eval` accepts in sloppy mode
(single-character escapes, `\xHH`, `\uHHHH`, braced Unicode escapes, legacy
octal escapes, line continuations, identity escapes).  A malformed escape,
a raw line break, a missing closing quote, or trailing input after the
closing quote is a SyntaxError, as under `eval`.  The fuel argument bounds
the recursion and is always sufficient, since every step consumes input. -/
def decodeStrLoop (quote : Char) : Nat → List Char → Except String (List Char)
  | _, [] => Except.error "Invalid or unexpected token"
  | 0, _ :: _ => Except.error "Invalid or unexpected token"
  | fuel + 1, c :: rest =>
    if c = quote then
      if rest.isEmpty then Except.ok []
      else Except.error "Unexpected token after string literal"
    else if c = '\n' ∨ c = '\r' then Except.error "Invalid or unexpected token"
    else if c = '\\' then
      match rest with
      | [] => Except.error "Invalid or unexpected token"
      | e :: rest2 =>
        if e = 'n' then (fun s => '\n' :: s) <$> decodeStrLoop quote fuel rest2
        else if e = 't' then (fun s => '\t' :: s) <$> decodeStrLoop quote fuel rest2
        else if e = 'r' then (fun s => '\r' :: s) <$> decodeStrLoop quote fuel rest2
        else if e = 'b' then (fun s => scalarChar 8 :: s) <$> decodeStrLoop quote fuel rest2
        else if e = 'f' then (fun s => scalarChar 12 :: s) <$> decodeStrLoop quote fuel rest2
        else if e = 'v' then (fun s => scalarChar 11 :: s) <$> decodeStrLoop quote fuel rest2
        else if e = 'x' then
          match readHex 2 0 rest2 with
          | some (n, rest3) => (fun s => scalarChar n :: s) <$> decodeStrLoop quote fuel rest3
          | none => Except.error "Invalid hexadecimal escape sequence"
        else if e = 'u' then
          match rest2 with
          | [] => Except.error "Invalid Unicode escape sequence"
          | b :: rest3 =>
            if b = lbraceChar then
              match readBracedHex (rest3.length + 1) 0 false rest3 with
              | some (n, rest4) =>
                if n ≤ 1114111 then
                  (fun s => scalarChar n :: s) <$> decodeStrLoop quote fuel rest4
                else Except.error "Undefined Unicode code-point"
              | none => Except.error "Invalid Unicode escape sequence"
            else
              match readHex 4 0 rest2 with
              | some (n, rest3') => (fun s => scalarChar n :: s) <$> decodeStrLoop quote fuel rest3'
              | none => Except.error "Invalid Unicode escape sequence"
        else if '0' ≤ e ∧ e ≤ '7' then
          match readOctMax 2 (e.toNat - 48) rest2 with
          | (n, rest3) => (fun s => scalarChar n :: s) <$> decodeStrLoop quote fuel rest3
        else if e = '\n' then decodeStrLoop quote fuel rest2
        else if e = '\r' then
          match rest2 with
          | '\n' :: rest3 => decodeStrLoop quote fuel rest3
          | _ => decodeStrLoop quote fuel rest2
        else (fun s => e :: s) <$> decodeStrLoop quote fuel rest2
    else (fun s => c :: s) <$> decodeStrLoop quote fuel rest

/-- Models `eval(raw)` applied to a string-literal token: the token must be
a quoted literal, whose body decodes per `decodeStrLoop`. -/
def jsDecodeStrLit (raw : String) : Except String String :=
  match raw.toList with
  | [] => Except.error "Unexpected end of input"
  | q :: rest =>
    if q = '"' ∨ q = squoteChar then
      (fun cs => String.mk cs) <$> decodeStrLoop q (rest.length + 1) rest
    else Except.error "Invalid or unexpected token"

/-- Splits the body of a regular-expression literal at its closing `/`
(which cannot be escaped or inside a character class), returning the
pattern's characters and the flag characters; an unterminated literal or a
raw line break is a SyntaxError. -/
def splitRegexBody : Nat → Bool → List Char → List Char → Except String (List Char × List Char)
  | 0, _, _, _ => Except.error "Invalid regular expression: missing /"
  | _ + 1, _, _, [] => Except.error "Invalid regular expression: missing /"
  | fuel + 1, inClass, acc, c :: rest =>
    if c = '\n' ∨ c = '\r' then Except.error "Invalid regular expression: missing /"
    else if c = '\\' then
      match rest with
      | [] => Except.error "Invalid regular expression: missing /"
      | e :: rest2 => splitRegexBody fuel inClass (e :: c :: acc) rest2
    else if c = '/' ∧ ¬inClass then Except.ok (acc.reverse, rest)
    else if c = '[' then splitRegexBody fuel true (c :: acc) rest
    else if c = ']' then splitRegexBody fuel false (c :: acc) rest
    else splitRegexBody fuel inClass (c :: acc) rest

/-- Validates a regular-expression flag list as the host engine does: only
known flag letters, no duplicates, and not both Unicode modes at once. -/
def checkFlags (flags : List Char) : Except String Unit :=
  if flags.all (fun c => c ∈ ['d', 'g', 'i', 'm', 's', 'u', 'v', 'y']) then
    if flags.Nodup then
      if 'u' ∈ flags ∧ 'v' ∈ flags then
        Except.error "Invalid regular expression flags"
      else Except.ok ()
    else Except.error "Invalid regular expression flags"
  else Except.error "Invalid regular expression flags"

/-- Scans a character class after its opening bracket, up to its unescaped
closing bracket. -/
def scanClass : Nat → List Char → Except String (List Char)
  | 0, _ => Except.error "Invalid regular expression: unterminated character class"
  | _ + 1, [] => Except.error "Invalid regular expression: unterminated character class"
  | fuel + 1, c :: rest =>
    if c = '\\' then
      match rest with
      | [] => Except.error "Invalid regular expression: unterminated character class"
      | _ :: rest2 => scanClass fuel rest2
    else if c = ']' then Except.ok rest
    else scanClass fuel rest

/-- Models the host engine's validation of a regular-expression pattern in
its default (non-Unicode) mode, at the granularity the grammar's tokens
need: a quantifier must follow a quantifiable atom (with one lazy `?`
allowed after a quantifier), groups must be balanced, and character classes
must be closed.  `depth` counts open groups, `canQuant` whether an atom
immediately precedes, `lastQ` whether a quantifier immediately precedes. -/
def checkPattern : Nat → Nat → Bool → Bool → List Char → Except String Unit
  | _, depth, _, _, [] =>
    if depth = 0 then Except.ok ()
    else Except.error "Invalid regular expression: unterminated group"
  | 0, _, _, _, _ :: _ => Except.error "Invalid regular expression"
  | fuel + 1, depth, canQuant, lastQ, c :: rest =>
    if c = '\\' then
      match rest with
      | [] => Except.error "Invalid regular expression: \\ at end of pattern"
      | _ :: rest2 => checkPattern fuel depth true false rest2
    else if c = '[' then
      match scanClass (rest.length + 1) rest with
      | Except.ok rest2 => checkPattern fuel depth true false rest2
      | Except.error m => Except.error m
    else if c = '(' then
      match rest with
      | '?' :: rest2 => checkPattern fuel (depth + 1) false false rest2
      | _ => checkPattern fuel (depth + 1) false false rest
    else if c = ')' then
      if depth = 0 then Except.error "Invalid regular expression: unmatched )"
      else checkPattern fuel (depth - 1) true false rest
    else if c = '|' then checkPattern fuel depth false false rest
    else if c = '*' ∨ c = '+' then
      if canQuant then checkPattern fuel depth false true rest
      else Except.error "Invalid regular expression: nothing to repeat"
    else if c = '?' then
      if canQuant then checkPattern fuel depth false true rest
      else if lastQ then checkPattern fuel depth false false rest
      else Except.error "Invalid regular expression: nothing to repeat"
    else checkPattern fuel depth true false rest

/-- Models `eval(raw)` applied to a regular-expression token
`/pattern/flags`: splits the body at the closing slash and validates the
flags and the pattern, returning the pattern and flag strings of the
resulting RegExp object. -/
def jsDecodeRegExpLit (raw : String) : Except String (String × String) :=
  match raw.toList with
  | '/' :: rest => do
    let (pat, flags) ← splitRegexBody (rest.length + 1) false [] rest
    checkFlags flags
    checkPattern (pat.length + 1) 0 false false pat
    Except.ok (String.mk pat, String.mk flags)
  | _ => Except.error "Invalid regular expression"

/-! ## The builders

One definition per entry of the `processors` object, in source order.  Each
is a function of the child list, mirroring JS positional parameter binding
(`argD`), rest parameters (`drop 1`), and strict-equality tests against
delimiter tokens.  The closing-brace delimiter is written `\x7d`. -/

/-- The type of a registered builder. -/
abbrev Builder := List JSVal → Except JSErr JSVal

/-- Whether a JS value is a string (`typeof v === 'string'`). -/
def isStr : JSVal → Bool
  | vstr _ => true
  | _ => false

/-- `ArgList(_op, ...args)`: the rest children with `','` and `')'`
filtered out. -/
def argListElems (children : List JSVal) : List JSVal :=
  (children.drop 1).filter (fun arg => arg != vstr "," && arg != vstr ")")

/-- Builder for `ArgList`. -/
def ArgListU : Builder := fun children =>
  Except.ok (jarr (argListElems children))

/-- `ArrayExpression(_ob, ...elements)`: the rest children with `','` and
`']'` filtered out. -/
def arrayElems (children : List JSVal) : List JSVal :=
  (children.drop 1).filter (fun elem => elem != vstr "," && elem != vstr "]")

/-- Builder for `ArrayExpression`. -/
def ArrayExpressionU : Builder := fun children =>
  Except.ok (jobj [("type", vstr "ArrayExpression"), ("elements", jarr (arrayElems children))])

/-- Builder for `AssignmentExpression`. -/
def AssignmentExpressionU : Builder := fun children =>
  Except.ok (jobj [("type", vstr "AssignmentExpression"), ("left", argD children 0),
    ("operator", argD children 1), ("right", argD children 2)])

/-- Builder for `BinaryExpression`: the regular-expression test
`/&&|\|\||\?\?/` decides `LogicalExpression` vs `BinaryExpression`. -/
def BinaryExpressionU : Builder := fun children =>
  let op := argD children 1
  let ty := if strContainsSub (jsToString op) "&&" || strContainsSub (jsToString op) "||"
      || strContainsSub (jsToString op) "??" then "LogicalExpression" else "BinaryExpression"
  Except.ok (jobj [("type", vstr ty), ("operator", op),
    ("left", argD children 0), ("right", argD children 2)])

/-- `Block(_ob, ...parts)`: the rest children with `'\x7d'` filtered out. -/
def blockBody (children : List JSVal) : List JSVal :=
  (children.drop 1).filter (fun part => part != vstr "\x7d")

/-- Builder for `Block`. -/
def BlockU : Builder := fun children =>
  Except.ok (jobj [("type", vstr "BlockStatement"), ("body", jarr (blockBody children))])

/-- Builder for `BooleanLiteral`. -/
def BooleanLiteralU : Builder := fun children =>
  let raw := argD children 0
  Except.ok (jobj [("type", vstr "Literal"), ("value", vbool (raw == vstr "true")), ("raw", raw)])

/-- Builder for `BreakStatement`. -/
def BreakStatementU : Builder := fun children =>
  let lab := argD children 1
  Except.ok (jobj [("type", vstr "BreakStatement"),
    ("label", if lab == vstr ";" then vnull else lab)])

/-- Builder for `CallExpression`. -/
def CallExpressionU : Builder := fun children =>
  Except.ok (jobj [("type", vstr "CallExpression"), ("callee", argD children 0),
    ("arguments", argD children 1)])

/-- Builder for `ConditionalExpression`. -/
def ConditionalExpressionU : Builder := fun children =>
  Except.ok (jobj [("type", vstr "ConditionalExpression"), ("test", argD children 0),
    ("consequent", argD children 2), ("alternate", argD children 4)])

/-- Builder for `ContinueStatement`. -/
def ContinueStatementU : Builder := fun children =>
  let lab := argD children 1
  Except.ok (jobj [("type", vstr "ContinueStatement"),
    ("label", if lab == vstr ";" then vnull else lab)])

/-- Builder for `ExpressionStatement`. -/
def ExpressionStatementU : Builder := fun children =>
  Except.ok (jobj [("type", vstr "ExpressionStatement"), ("expression", argD children 0)])

/-- Builder for `FunctionDeclaration`: destructures `{ id }` from its second
child. -/
def FunctionDeclarationU : Builder := fun children => do
  let id ← getProp (argD children 1) "id"
  Except.ok (jobj [("type", vstr "FunctionDeclaration"), ("id", id),
    ("params", argD children 2), ("body", argD children 3),
    ("async", vbool false), ("generator", vbool false)])

/-- Builder for `IfStatement`: the `alternate` parameter defaults to `null`
when the walker supplies no (or an `undefined`) fifth child. -/
def IfStatementU : Builder := fun children =>
  let alt := argD children 4
  Except.ok (jobj [("type", vstr "IfStatement"), ("test", argD children 1),
    ("consequent", argD children 2),
    ("alternate", if alt == vundef then vnull else alt)])

/-- Builder for `MemberExpression`: `computed` is whether the accessor token
is `'['`. -/
def MemberExpressionU : Builder := fun children =>
  Except.ok (jobj [("type", vstr "MemberExpression"), ("object", argD children 0),
    ("property", argD children 2), ("computed", vbool (argD children 1 == vstr "["))])

/-- Whether a string's last character is `c` (the `/n$/` test). -/
def endsWithChar (s : String) (c : Char) : Bool :=
  s.toList.getLast? == some c

/-- The string with its final character removed (the effect of
`raw.replace(/n$/, '')` once the suffix test has succeeded). -/
def dropLastChar (s : String) : String :=
  String.mk s.toList.dropLast

/-- Builder for `Number`: a raw token ending in `n` is converted by
`BigInt` on the token without its suffix (`raw.replace(/n$/, '')`),
otherwise by the unary `+` coercion. -/
def NumberU : Builder := fun children =>
  let rawv := argD children 0
  let s := jsToString rawv
  if endsWithChar s 'n' then
    match jsBigInt (dropLastChar s) with
    | Except.ok i =>
      Except.ok (jobj [("type", vstr "Literal"), ("value", vbigint i), ("raw", rawv)])
    | Except.error m => Except.error (JSErr.parseErr m)
  else
    Except.ok (jobj [("type", vstr "Literal"),
      ("value", match jsToNumber s with | some q => vnum q | none => vnan),
      ("raw", rawv)])

/-- `ObjectExpression(_ob, ...properties)`: the rest children with `','` and
`'\x7d'` filtered out. -/
def objectProps (children : List JSVal) : List JSVal :=
  (children.drop 1).filter (fun prop => prop != vstr "," && prop != vstr "\x7d")

/-- Builder for `ObjectExpression`. -/
def ObjectExpressionU : Builder := fun children =>
  Except.ok (jobj [("type", vstr "ObjectExpression"), ("properties", jarr (objectProps children))])

/-- `ParamList(_op, ...parts)`: the rest children with `')'` filtered out
(and only `')'` — the source does not filter `','` here). -/
def paramListElems (children : List JSVal) : List JSVal :=
  (children.drop 1).filter (fun part => part != vstr ")")

/-- Builder for `ParamList`. -/
def ParamListU : Builder := fun children =>
  Except.ok (jarr (paramListElems children))

/-- Builder for `ParenthesizedExpression`: returns the enclosed expression
child itself. -/
def ParenthesizedExpressionU : Builder := fun children =>
  Except.ok (argD children 1)

/-- Builder for `PostfixExpression`: always an `UpdateExpression` with
`prefix` false. -/
def PostfixExpressionU : Builder := fun children =>
  Except.ok (jobj [("type", vstr "UpdateExpression"), ("prefix", vbool false),
    ("operator", argD children 1), ("argument", argD children 0)])

/-- Builder for `Property`: a leading `'['` child marks a computed key. -/
def PropertyU : Builder := fun children =>
  if argD children 0 == vstr "[" then
    Except.ok (jobj [("type", vstr "Property"), ("key", argD children 1),
      ("value", argD children 4), ("computed", vbool true), ("kind", vstr "init"),
      ("method", vbool false), ("shorthand", vbool false)])
  else
    Except.ok (jobj [("type", vstr "Property"), ("key", argD children 0),
      ("value", argD children 2), ("computed", vbool false), ("kind", vstr "init"),
      ("method", vbool false), ("shorthand", vbool false)])

/-- Builder for `PropertyName`. -/
def PropertyNameU : Builder := fun children =>
  Except.ok (jobj [("type", vstr "Identifier"), ("name", argD children 0)])

/-- Builder for `PropertyNameDefinition`. -/
def PropertyNameDefinitionU : Builder := fun children =>
  Except.ok (jobj [("type", vstr "Identifier"), ("name", argD children 0)])

/-- Builder for `RegExp`: `eval(raw)` compiles the literal (modelled by
`jsDecodeRegExpLit`, surfacing the engine's SyntaxError); the comment-shaped
token `//…` makes `eval` yield `undefined`, so the subsequent `.source` read
throws a TypeError. -/
def RegExpU : Builder := fun children =>
  let rawv := argD children 0
  match jsDecodeRegExpLit (jsToString rawv) with
  | Except.ok (p, f) =>
    if p = "" then
      Except.error (JSErr.typeErr "Cannot read properties of undefined (reading source)")
    else
      Except.ok (jobj [("type", vstr "Literal"), ("raw", rawv), ("value", vregex p f),
        ("regex", jobj [("pattern", vstr p), ("flags", vstr f)])])
  | Except.error m => Except.error (JSErr.parseErr m)

/-- Builder for `ReturnStatement`. -/
def ReturnStatementU : Builder := fun children =>
  Except.ok (jobj [("type", vstr "ReturnStatement"), ("argument", argD children 1)])

/-- Builder for `Script`. -/
def ScriptU : Builder := fun children =>
  Except.ok (jobj [("type", vstr "Program"), ("sourceType", vstr "script"),
    ("body", jarr children)])

/-- Builder for `SequenceExpression`: all children with `','` filtered
out. -/
def SequenceExpressionU : Builder := fun children =>
  Except.ok (jobj [("type", vstr "SequenceExpression"),
    ("expressions", jarr (children.filter (fun part => part != vstr ",")))])

/-- Builder for `String`: `eval(raw)` decodes the literal (modelled by
`jsDecodeStrLit`, surfacing the engine's SyntaxError). -/
def StringU : Builder := fun children =>
  let rawv := argD children 0
  match jsDecodeStrLit (jsToString rawv) with
  | Except.ok s =>
    Except.ok (jobj [("type", vstr "Literal"), ("value", vstr s), ("raw", rawv)])
  | Except.error m => Except.error (JSErr.parseErr m)

/-- Builder for `UnaryExpression`: the operator is the string-typed child,
`prefix` records whether it comes first, and the regular-expression test
for `--` or `++` occurring in the operator decides `UpdateExpression` vs
`UnaryExpression`. -/
def UnaryExpressionU : Builder := fun children =>
  let t1 := argD children 0
  let t2 := argD children 1
  let pre := isStr t1
  let operator := if pre then t1 else t2
  let argument := if pre then t2 else t1
  let ty := if strContainsSub (jsToString operator) "--"
      || strContainsSub (jsToString operator) "++" then "UpdateExpression"
    else "UnaryExpression"
  Except.ok (jobj [("type", vstr ty), ("prefix", vbool pre),
    ("operator", operator), ("argument", argument)])

/-- The declarator-folding loop of `VariableDeclaration`, operating on the
rest children `defs`.  Each iteration shifts a declarator and a separator;
`'='` additionally shifts the initializer and the next separator; the loop
continues on `','`.  `defs.shift()` on an exhausted array yields
`undefined`, so an empty sequence makes the iteration write `.init` on
`undefined`, which throws a TypeError; any separator other than `'='`/`','`
(or the end of input) simply stops the loop.  `setInit` models the in-place
assignment `decl.init = …`: in the source the record pushed into
`declarations` is the very child object, observed after that mutation. -/
def vdLoop : List JSVal → List JSVal → Except JSErr (List JSVal)
  | [], _acc => Except.error (JSErr.typeErr "Cannot set properties of undefined")
  | [decl], acc => do
    let d ← setInit decl vnull
    Except.ok (acc ++ [d])
  | decl :: op :: rest, acc =>
    if op = vstr "=" then
      match rest with
      | [] => do
        let d ← setInit decl vundef
        Except.ok (acc ++ [d])
      | [ini] => do
        let d ← setInit decl ini
        Except.ok (acc ++ [d])
      | ini :: op2 :: rest2 => do
        let d ← setInit decl ini
        if op2 = vstr "," then vdLoop rest2 (acc ++ [d])
        else Except.ok (acc ++ [d])
    else do
      let d ← setInit decl vnull
      if op = vstr "," then vdLoop rest (acc ++ [d])
      else Except.ok (acc ++ [d])

/-- Builder for `VariableDeclaration(kind, ...defs)`. -/
def VariableDeclarationU : Builder := fun children => do
  let decls ← vdLoop (children.drop 1) []
  Except.ok (jobj [("type", vstr "VariableDeclaration"), ("kind", argD children 0),
    ("declarations", jarr decls)])

/-- Builder for `VariableDefinition`: note the produced declarator record
carries no `init` field. -/
def VariableDefinitionU : Builder := fun children =>
  Except.ok (jobj [("type", vstr "VariableDeclarator"),
    ("id", jobj [("type", vstr "Identifier"), ("name", argD children 0)])])

/-- The value `JSON.parse` gives for the keyword tokens `true`, `false`,
`null`. -/
def jsonLitVal (s : String) : JSVal :=
  if s = "true" then vbool true else if s = "false" then vbool false else vnull

/-- Builder for `VariableName`: the keywords `true`/`false`/`null` become a
`Literal` holding only the parsed value (no `raw` field), `this` becomes a
`ThisExpression`, anything else an `Identifier`. -/
def VariableNameU : Builder := fun children =>
  let n := argD children 0
  let s := jsToString n
  if s = "true" ∨ s = "false" ∨ s = "null" then
    Except.ok (jobj [("type", vstr "Literal"), ("value", jsonLitVal s)])
  else if n == vstr "this" then
    Except.ok (jobj [("type", vstr "ThisExpression")])
  else
    Except.ok (jobj [("type", vstr "Identifier"), ("name", n)])

/-- Builder for `WhileStatement`. -/
def WhileStatementU : Builder := fun children =>
  Except.ok (jobj [("type", vstr "WhileStatement"), ("test", argD children 1),
    ("body", argD children 2)])

/-- The builder registered for the operator-token kinds
(`'ArithOp BitOp CompareOp Equals LogicOp UpdateOp'`): the identity on the
token. -/
def tokenPassthrough : Builder := fun children =>
  Except.ok (argD children 0)

/-! ## The registry -/

/-- The `processors` dispatch table: each grammar kind name paired with its
builder, in source order, followed by the six operator-token kinds
registered by the trailing `forEach`. -/
def processorsAList : List (String × Builder) :=
  [("ArgList", ArgListU),
   ("ArrayExpression", ArrayExpressionU),
   ("AssignmentExpression", AssignmentExpressionU),
   ("BinaryExpression", BinaryExpressionU),
   ("Block", BlockU),
   ("BooleanLiteral", BooleanLiteralU),
   ("BreakStatement", BreakStatementU),
   ("CallExpression", CallExpressionU),
   ("ConditionalExpression", ConditionalExpressionU),
   ("ContinueStatement", ContinueStatementU),
   ("ExpressionStatement", ExpressionStatementU),
   ("FunctionDeclaration", FunctionDeclarationU),
   ("IfStatement", IfStatementU),
   ("MemberExpression", MemberExpressionU),
   ("Number", NumberU),
   ("ObjectExpression", ObjectExpressionU),
   ("ParamList", ParamListU),
   ("ParenthesizedExpression", ParenthesizedExpressionU),
   ("PostfixExpression", PostfixExpressionU),
   ("Property", PropertyU),
   ("PropertyName", PropertyNameU),
   ("PropertyNameDefinition", PropertyNameDefinitionU),
   ("RegExp", RegExpU),
   ("ReturnStatement", ReturnStatementU),
   ("Script", ScriptU),
   ("SequenceExpression", SequenceExpressionU),
   ("String", StringU),
   ("UnaryExpression", UnaryExpressionU),
   ("VariableDeclaration", VariableDeclarationU),
   ("VariableDefinition", VariableDefinitionU),
   ("VariableName", VariableNameU),
   ("WhileStatement", WhileStatementU),
   ("ArithOp", tokenPassthrough),
   ("BitOp", tokenPassthrough),
   ("CompareOp", tokenPassthrough),
   ("Equals", tokenPassthrough),
   ("LogicOp", tokenPassthrough),
   ("UpdateOp", tokenPassthrough)]

/-- The grammar kind names the registry covers. -/
def registryKeys : List String := processorsAList.map Prod.fst

/-- Modelled from the spec: the external bottom-up tree walker's dispatch —
the walker itself is not part of `src/` (only the registry it consumes is).
Per the specification it looks a node's grammar kind up in the registry and
invokes the registered builder on the transformed children; "encountering a
kind absent from the registry is an error (`UnsupportedNodeKind`) surfaced
to the caller, not swallowed". -/
def build (kind : String) (children : List JSVal) : Except JSErr JSVal :=
  match processorsAList.lookup kind with
  | some f => f children
  | none => Except.error (JSErr.unsupportedNodeKind kind)

/-! ## Declarator sequences

The grammar hands `VariableDeclaration` a flat sequence
`decl (= init)? (, decl (= init)?)* terminator`.  `flattenDecls` builds that
shape from a list of declarators with optional initializers. -/

/-- The declarator record `VariableDefinition` produces for the name child
`name` — note: no `init` field. -/
def mkVarDecl (name : JSVal) : JSVal :=
  jobj [("type", vstr "VariableDeclarator"),
    ("id", jobj [("type", vstr "Identifier"), ("name", name)])]

/-- The same declarator record after `VariableDeclaration` has written its
`init` field (appended after the existing fields, as JS property creation
does). -/
def mkVarDeclInit (name ini : JSVal) : JSVal :=
  jobj [("type", vstr "VariableDeclarator"),
    ("id", jobj [("type", vstr "Identifier"), ("name", name)]),
    ("init", ini)]

/-- One declarator with its optional `= initializer`. -/
def flatten1 : JSVal × Option JSVal → List JSVal
  | (d, none) => [d]
  | (d, some i) => [d, vstr "=", i]

/-- A comma-separated declarator sequence (without its terminator). -/
def flattenDecls : List (JSVal × Option JSVal) → List JSVal
  | [] => []
  | [x] => flatten1 x
  | x :: y :: xs => flatten1 x ++ vstr "," :: flattenDecls (y :: xs)

/-- The update test the `UnaryExpression` builder applies to its operator:
whether `--` or `++` occurs anywhere in the operator string (the source's
regular-expression test is a substring search, not an equality test). -/
def isUpdateOp (op : String) : Bool :=
  strContainsSub op "--" || strContainsSub op "++"

lemma setInit_mkVarDecl (name v : JSVal) :
    setInit (mkVarDecl name) v = Except.ok (mkVarDeclInit name v) := rfl

lemma except_ok_bind {ε α β : Type _} (a : α) (f : α → Except ε β) :
    (Except.ok (ε := ε) a >>= f) = f a := rfl

lemma except_error_bind {ε α β : Type _} (e : ε) (f : α → Except ε β) :
    (Except.error (α := α) e >>= f) = Except.error (α := β) e := rfl

lemma mkVarDeclInit_ne_mkVarDecl (name ini : JSVal) :
    mkVarDeclInit name ini ≠ mkVarDecl name := by
  simp [mkVarDeclInit, mkVarDecl, jobj, JSFields.ofList]

lemma vdLoop_last_none (name : JSVal) (acc : List JSVal) :
    vdLoop [mkVarDecl name, vstr ";"] acc
      = Except.ok (acc ++ [mkVarDeclInit name vnull]) := rfl

lemma vdLoop_last_some (name i : JSVal) (acc : List JSVal) :
    vdLoop [mkVarDecl name, vstr "=", i, vstr ";"] acc
      = Except.ok (acc ++ [mkVarDeclInit name i]) := rfl

lemma vdLoop_single_none (name : JSVal) (acc : List JSVal) :
    vdLoop [mkVarDecl name] acc
      = Except.ok (acc ++ [mkVarDeclInit name vnull]) := rfl

lemma vdLoop_single_some (name i : JSVal) (acc : List JSVal) :
    vdLoop [mkVarDecl name, vstr "=", i] acc
      = Except.ok (acc ++ [mkVarDeclInit name i]) := rfl

lemma vdLoop_step_none (name : JSVal) (R acc : List JSVal) :
    vdLoop (mkVarDecl name :: vstr "," :: R) acc
      = vdLoop R (acc ++ [mkVarDeclInit name vnull]) := by
  rw [vdLoop.eq_def]
  simp [setInit_mkVarDecl, except_ok_bind]

lemma vdLoop_step_some (name i : JSVal) (R acc : List JSVal) :
    vdLoop (mkVarDecl name :: vstr "=" :: i :: vstr "," :: R) acc
      = vdLoop R (acc ++ [mkVarDeclInit name i]) := by
  rw [vdLoop.eq_def]
  simp [setInit_mkVarDecl, except_ok_bind]

/-- Folding a well-formed, `';'`-terminated declarator sequence: every
declarator comes back with its `init` field written (initializer if
present, otherwise null), appended to the accumulator. -/
lemma vdLoop_flatten_term (items : List (JSVal × Option JSVal)) (acc : List JSVal)
    (h : items ≠ []) :
    vdLoop (flattenDecls (items.map (fun p => (mkVarDecl p.1, p.2))) ++ [vstr ";"]) acc
      = Except.ok (acc ++ items.map (fun p => mkVarDeclInit p.1 (p.2.getD vnull))) := by
  induction items generalizing acc with
  | nil => exact absurd rfl h
  | cons p rest ih =>
    rcases p with ⟨name, oi⟩
    cases rest with
    | nil =>
      cases oi with
      | none => simp [flattenDecls, flatten1, vdLoop_last_none]
      | some i => simp [flattenDecls, flatten1, vdLoop_last_some]
    | cons q rest2 =>
      cases oi with
      | none =>
        have ih2 := ih (acc ++ [mkVarDeclInit name vnull]) (by simp)
        simp only [List.map] at ih2
        simp only [List.map, flattenDecls, flatten1, List.cons_append, List.nil_append]
        rw [vdLoop_step_none, ih2]
        simp
      | some i =>
        have ih2 := ih (acc ++ [mkVarDeclInit name i]) (by simp)
        simp only [List.map] at ih2
        simp only [List.map, flattenDecls, flatten1, List.cons_append, List.nil_append]
        rw [vdLoop_step_some, ih2]
        simp

/-- Folding a well-formed declarator sequence with NO terminator at all:
the loop still succeeds, treating the end of input as termination. -/
lemma vdLoop_flatten_noterm (items : List (JSVal × Option JSVal)) (acc : List JSVal)
    (h : items ≠ []) :
    vdLoop (flattenDecls (items.map (fun p => (mkVarDecl p.1, p.2)))) acc
      = Except.ok (acc ++ items.map (fun p => mkVarDeclInit p.1 (p.2.getD vnull))) := by
  induction items generalizing acc with
  | nil => exact absurd rfl h
  | cons p rest ih =>
    rcases p with ⟨name, oi⟩
    cases rest with
    | nil =>
      cases oi with
      | none => simp [flattenDecls, flatten1, vdLoop_single_none]
      | some i => simp [flattenDecls, flatten1, vdLoop_single_some]
    | cons q rest2 =>
      cases oi with
      | none =>
        have ih2 := ih (acc ++ [mkVarDeclInit name vnull]) (by simp)
        simp only [List.map] at ih2
        simp only [List.map, flattenDecls, flatten1, List.cons_append, List.nil_append]
        rw [vdLoop_step_none, ih2]
        simp
      | some i =>
        have ih2 := ih (acc ++ [mkVarDeclInit name i]) (by simp)
        simp only [List.map] at ih2
        simp only [List.map, flattenDecls, flatten1, List.cons_append, List.nil_append]
        rw [vdLoop_step_some, ih2]
        simp

example : jsBigInt "10" = Except.ok 10 := by decide
example : jsToNumber "3.5" = some (mkRat 7 2) := by decide
example : jsDecodeStrLit "\"a\"" = Except.ok "a" := by decide
example : jsDecodeStrLit "\"a\\nb\"" = Except.ok "a\nb" := by decide
example : jsDecodeStrLit "\"\\x\"" = Except.error "Invalid hexadecimal escape sequence" := by decide
example : (jsDecodeRegExpLit "/ab/g").isOk = true := by decide
example : jsDecodeRegExpLit "/+/" = Except.error "Invalid regular expression: nothing to repeat" := by decide
example : jsDecodeRegExpLit "/a/gg" = Except.error "Invalid regular expression flags" := by decide

/-! ## Sequence-filter lemmas -/

lemma filter_all_keep {α : Type _} (p : α → Bool) (l : List α) :
    (l.filter p).all p = true := by
  rw [List.all_eq_true]
  intro x hx
  exact (List.mem_filter.mp hx).2

lemma drop_filter_sublist {α : Type _} (p : α → Bool) (n : Nat) (l : List α) :
    List.Sublist ((l.drop n).filter p) l :=
  (List.filter_sublist _).trans (List.drop_sublist n l)

/-! ## The claims -/

/-- C2 (corrected): for every child list, each sequence-producing builder
removes exactly its own delimiters — `','` and `')'` for `ArgList`, `','`
and `']'` for `ArrayExpression`, the closing brace for `Block`, `')'` for
`ParamList`, `','` and the closing brace for `ObjectExpression` — so its
output contains none of those, and it preserves the relative order of the
remaining children (the output is a sublist of the child list).  `Block`
and `ParamList` do not remove `','`. -/
theorem c2_theorem (children : List JSVal) :
    ((argListElems children).all (fun x => x != vstr "," && x != vstr ")") = true
      ∧ List.Sublist (argListElems children) children)
    ∧ ((arrayElems children).all (fun x => x != vstr "," && x != vstr "]") = true
      ∧ List.Sublist (arrayElems children) children)
    ∧ ((blockBody children).all (fun x => x != vstr "\x7d") = true
      ∧ List.Sublist (blockBody children) children)
    ∧ ((paramListElems children).all (fun x => x != vstr ")") = true
      ∧ List.Sublist (paramListElems children) children)
    ∧ ((objectProps children).all (fun x => x != vstr "," && x != vstr "\x7d") = true
      ∧ List.Sublist (objectProps children) children) :=
  ⟨⟨filter_all_keep _ _, drop_filter_sublist _ _ _⟩,
   ⟨filter_all_keep _ _, drop_filter_sublist _ _ _⟩,
   ⟨filter_all_keep _ _, drop_filter_sublist _ _ _⟩,
   ⟨filter_all_keep _ _, drop_filter_sublist _ _ _⟩,
   ⟨filter_all_keep _ _, drop_filter_sublist _ _ _⟩⟩

/-- C2 counterexample: the claim "the list returned by each
sequence-producing builder contains no delimiter string (',', ')', ']',
'\x7d')" is false: `ParamList` keeps `','` (it only filters `')'`), and so
does `Block` (it only filters the closing brace). -/
theorem c2_counterexample :
    paramListElems [vstr "(", vstr ",", vstr ")"] = [vstr ","]
    ∧ vstr "," ∈ paramListElems [vstr "(", vstr ",", vstr ")"]
    ∧ blockBody [vstr "\x7b", vstr ",", vstr "\x7d"] = [vstr ","]
    ∧ vstr "," ∈ blockBody [vstr "\x7b", vstr ",", vstr "\x7d"] := by decide

/-- C1 (corrected): the `VariableDeclaration` builder does NOT leave the
declarator records it receives unchanged: for every well-formed declarator
sequence it writes an `init` field into each received declarator record
(the initializer when present, otherwise null).  Each record in the
returned `declarations` list is the received child record with `init`
written — and differs from the record as received. -/
theorem c1_theorem (kind : JSVal) (items : List (JSVal × Option JSVal))
    (h : items ≠ []) :
    VariableDeclarationU
        (kind :: (flattenDecls (items.map (fun p => (mkVarDecl p.1, p.2))) ++ [vstr ";"]))
      = Except.ok (jobj [("type", vstr "VariableDeclaration"), ("kind", kind),
          ("declarations", jarr (items.map (fun p => mkVarDeclInit p.1 (p.2.getD vnull))))])
    ∧ ∀ p ∈ items, mkVarDeclInit p.1 (p.2.getD vnull) ≠ mkVarDecl p.1 := by
  constructor
  · have hv := vdLoop_flatten_term items [] h
    simp only [List.nil_append] at hv
    simp [VariableDeclarationU, argD, hv, except_ok_bind]
  · intro p _
    exact mkVarDeclInit_ne_mkVarDecl p.1 _

/-- C1 witness: the theorem applied to the single declarator `x` with no
initializer. -/
theorem c1_witness :
    VariableDeclarationU [vstr "let", mkVarDecl (vstr "x"), vstr ";"]
      = Except.ok (jobj [("type", vstr "VariableDeclaration"), ("kind", vstr "let"),
          ("declarations", jarr [mkVarDeclInit (vstr "x") vnull])])
    ∧ mkVarDeclInit (vstr "x") vnull ≠ mkVarDecl (vstr "x") := by
  have h := c1_theorem (vstr "let") [(vstr "x", none)] (by decide)
  exact ⟨h.1, h.2 (vstr "x", none) (by decide)⟩

/-- C1 counterexample: the claim "the VariableDeclaration builder leaves
each declarator record it received as a child unchanged (it does not write
fields into it)" is false: the record `VariableDefinition` hands over has
no `init` field, and the corresponding record in the builder's output —
which in the source is the very same child object, observed after the call
— carries one. -/
theorem c1_counterexample :
    VariableDefinitionU [vstr "x"] = Except.ok (mkVarDecl (vstr "x"))
    ∧ hasField (mkVarDecl (vstr "x")) "init" = false
    ∧ VariableDeclarationU [vstr "let", mkVarDecl (vstr "x"), vstr ";"]
        = Except.ok (jobj [("type", vstr "VariableDeclaration"), ("kind", vstr "let"),
            ("declarations", jarr [mkVarDeclInit (vstr "x") vnull])])
    ∧ hasField (mkVarDeclInit (vstr "x") vnull) "init" = true
    ∧ mkVarDeclInit (vstr "x") vnull ≠ mkVarDecl (vstr "x") := by decide

/-- C3 (corrected): on the empty declarator sequence the
`VariableDeclaration` builder fails with a TypeError (it writes `.init` on
the `undefined` yielded by shifting an exhausted array), not with
`MalformedSequence`; and a well-formed sequence that does not end in a
recognized terminator does not fail at all — the builder treats the end of
input (or any unrecognized separator) as termination and returns the
declarations folded so far. -/
theorem c3_theorem :
    (∀ kind : JSVal,
      VariableDeclarationU [kind]
        = Except.error (JSErr.typeErr "Cannot set properties of undefined"))
    ∧ ∀ (kind : JSVal) (items : List (JSVal × Option JSVal)), items ≠ [] →
        VariableDeclarationU (kind :: flattenDecls (items.map (fun p => (mkVarDecl p.1, p.2))))
          = Except.ok (jobj [("type", vstr "VariableDeclaration"), ("kind", kind),
              ("declarations", jarr (items.map (fun p => mkVarDeclInit p.1 (p.2.getD vnull))))]) := by
  constructor
  · intro kind
    rfl
  · intro kind items h
    have hv := vdLoop_flatten_noterm items [] h
    simp only [List.nil_append] at hv
    simp [VariableDeclarationU, argD, hv, except_ok_bind]

/-- C3 witness: the theorem applied to the empty sequence and to the
unterminated single-declarator sequence `[decl "y"]`. -/
theorem c3_witness :
    VariableDeclarationU [vstr "var"]
      = Except.error (JSErr.typeErr "Cannot set properties of undefined")
    ∧ VariableDeclarationU [vstr "var", mkVarDecl (vstr "y")]
        = Except.ok (jobj [("type", vstr "VariableDeclaration"), ("kind", vstr "var"),
            ("declarations", jarr [mkVarDeclInit (vstr "y") vnull])]) :=
  ⟨c3_theorem.1 (vstr "var"), c3_theorem.2 (vstr "var") [(vstr "y", none)] (by decide)⟩

/-- C3 counterexample: the claim "for every declarator sequence that is
empty or does not end in a recognized terminator, the builder fails with a
MalformedSequence error rather than returning a result" is false: the
unterminated sequence `[decl "x"]` returns a result, and the empty sequence
fails with a TypeError, not `MalformedSequence`. -/
theorem c3_counterexample :
    VariableDeclarationU [vstr "let", mkVarDecl (vstr "x")]
      = Except.ok (jobj [("type", vstr "VariableDeclaration"), ("kind", vstr "let"),
          ("declarations", jarr [mkVarDeclInit (vstr "x") vnull])])
    ∧ VariableDeclarationU [vstr "let"]
        = Except.error (JSErr.typeErr "Cannot set properties of undefined")
    ∧ JSErr.typeErr "Cannot set properties of undefined" ≠ JSErr.malformedSequence := by
  decide

/-- C6 (confirmed): folding the well-formed declarator sequence
`[decl1, '=', init1, ',', decl2, ';']` yields exactly two declarators in
order, the first with `init` equal to `init1`, the second with `init`
null. -/
theorem c6_theorem (kind n1 i1 n2 : JSVal) :
    VariableDeclarationU
        [kind, mkVarDecl n1, vstr "=", i1, vstr ",", mkVarDecl n2, vstr ";"]
      = Except.ok (jobj [("type", vstr "VariableDeclaration"), ("kind", kind),
          ("declarations", jarr [mkVarDeclInit n1 i1, mkVarDeclInit n2 vnull])]) := rfl

/-- C9 (confirmed): the `ParenthesizedExpression` builder is the identity
on the enclosed expression: whatever the surrounding punctuation children
are, it returns the middle child itself, not a wrapper node. -/
theorem c9_theorem (opTok clTok : String) (e : JSVal) :
    ParenthesizedExpressionU [vstr opTok, e, vstr clTok] = Except.ok e := rfl

/-! ## Registry lookup -/

lemma lookup_eq_none_of_not_mem_keys {β : Type _} :
    ∀ (l : List (String × β)) (k : String), k ∉ l.map Prod.fst → l.lookup k = none := by
  intro l
  induction l with
  | nil => intro k _; rfl
  | cons p rest ih =>
    intro k h
    simp only [List.map_cons, List.mem_cons, not_or] at h
    have hb : (k == p.1) = false := by
      simp [h.1]
    simp [List.lookup, hb, ih k h.2]

/-- C4 (confirmed, walker modelled from the spec): invoking the dispatch on
any grammar kind name that has no registered builder surfaces an
`UnsupportedNodeKind` error to the caller — never a silently skipped node
or an undefined result. -/
theorem c4_theorem (kind : String) (h : kind ∉ registryKeys) (children : List JSVal) :
    build kind children = Except.error (JSErr.unsupportedNodeKind kind) := by
  unfold registryKeys at h
  unfold build
  rw [lookup_eq_none_of_not_mem_keys processorsAList kind h]

/-- C4 witness: `TemplateString` is a kind without a registered builder. -/
theorem c4_witness :
    build "TemplateString" []
      = Except.error (JSErr.unsupportedNodeKind "TemplateString") :=
  c4_theorem "TemplateString" (by decide) []

/-- C7 (corrected): the unary builder sets `prefix` by the position of the
string-typed operator child, and chooses `UpdateExpression` when the
operator CONTAINS `++` or `--` as a substring (the source's test is a
regular-expression search, not an equality test; on the grammar's
single-token operators the two coincide), otherwise `UnaryExpression` with
the same flag; the postfix-only builder always emits `UpdateExpression`
with `prefix` false.  In particular `++`/`--` are update operators and
`typeof`/`!` are not. -/
theorem c7_theorem (op : String) (e : JSVal) (h : isStr e = false) :
    UnaryExpressionU [vstr op, e]
      = Except.ok (jobj [("type",
            vstr (if isUpdateOp op then "UpdateExpression" else "UnaryExpression")),
          ("prefix", vbool true), ("operator", vstr op), ("argument", e)])
    ∧ UnaryExpressionU [e, vstr op]
      = Except.ok (jobj [("type",
            vstr (if isUpdateOp op then "UpdateExpression" else "UnaryExpression")),
          ("prefix", vbool false), ("operator", vstr op), ("argument", e)])
    ∧ PostfixExpressionU [e, vstr op]
      = Except.ok (jobj [("type", vstr "UpdateExpression"), ("prefix", vbool false),
          ("operator", vstr op), ("argument", e)])
    ∧ isUpdateOp "++" = true ∧ isUpdateOp "--" = true
    ∧ isUpdateOp "typeof" = false ∧ isUpdateOp "!" = false := by
  refine ⟨?_, ?_, rfl, by decide, by decide, by decide, by decide⟩
  · simp [UnaryExpressionU, argD, isStr, jsToString, isUpdateOp]
  · simp [UnaryExpressionU, argD, h, jsToString, isUpdateOp]

/-- C7 witness: `typeof x` gives a `UnaryExpression` with `prefix` true. -/
theorem c7_witness :
    UnaryExpressionU [vstr "typeof", jobj [("type", vstr "Identifier"), ("name", vstr "x")]]
      = Except.ok (jobj [("type", vstr "UnaryExpression"), ("prefix", vbool true),
          ("operator", vstr "typeof"),
          ("argument", jobj [("type", vstr "Identifier"), ("name", vstr "x")])]) :=
  ( c7_theorem "typeof" (jobj [("type", vstr "Identifier"), ("name", vstr "x")]) (by decide)).1

/-- C7 counterexample: the claim "if the operator is '++' or '--' it emits
an UpdateExpression …, otherwise a UnaryExpression with the same flag" is
false for the operator string `+++`, which is neither `++` nor `--` and
yet — because the source tests by substring — produces an
`UpdateExpression`. -/
theorem c7_counterexample :
    UnaryExpressionU [vstr "+++", jobj [("type", vstr "Identifier"), ("name", vstr "x")]]
      = Except.ok (jobj [("type", vstr "UpdateExpression"), ("prefix", vbool true),
          ("operator", vstr "+++"),
          ("argument", jobj [("type", vstr "Identifier"), ("name", vstr "x")])])
    ∧ "+++" ≠ "++" ∧ "+++" ≠ "--" := by decide

/-- C8 (confirmed): a raw number token ending in the big-integer suffix `n`
decodes to a `Literal` whose value is the arbitrary-precision integer
obtained by parsing the token without the suffix and whose `raw` field is
the original token text; a token without the suffix is decoded through the
floating-point coercion.  Concretely `"10n"` gives the big integer 10 with
`raw` `"10n"`, and `"3.5"` gives the value 3.5. -/
theorem c8_theorem :
    (∀ (raw : String) (i : Int), endsWithChar raw 'n' = true →
      jsBigInt (dropLastChar raw) = Except.ok i →
      NumberU [vstr raw] = Except.ok (jobj [("type", vstr "Literal"),
        ("value", vbigint i), ("raw", vstr raw)]))
    ∧ (∀ (raw : String) (q : Rat), endsWithChar raw 'n' = false → jsToNumber raw = some q →
      NumberU [vstr raw] = Except.ok (jobj [("type", vstr "Literal"),
        ("value", vnum q), ("raw", vstr raw)]))
    ∧ NumberU [vstr "10n"] = Except.ok (jobj [("type", vstr "Literal"),
        ("value", vbigint 10), ("raw", vstr "10n")])
    ∧ NumberU [vstr "3.5"] = Except.ok (jobj [("type", vstr "Literal"),
        ("value", vnum (mkRat 7 2)), ("raw", vstr "3.5")]) := by
  refine ⟨?_, ?_, by decide, by decide⟩
  · intro raw i h1 h2
    simp [NumberU, argD, jsToString, h1, h2]
  · intro raw q h1 h2
    simp [NumberU, argD, jsToString, h1, h2]

/-- C8 witness: the suffix branch at `"25n"` and the floating branch at
`"0.5"`. -/
theorem c8_witness :
    NumberU [vstr "25n"] = Except.ok (jobj [("type", vstr "Literal"),
        ("value", vbigint 25), ("raw", vstr "25n")])
    ∧ NumberU [vstr "0.5"] = Except.ok (jobj [("type", vstr "Literal"),
        ("value", vnum (mkRat 1 2)), ("raw", vstr "0.5")]) :=
  ⟨c8_theorem.1 "25n" 25 (by decide) (by decide),
   c8_theorem.2.1 "0.5" (mkRat 1 2) (by decide) (by decide)⟩

/-- C10 (confirmed): a bare name token equal to `true`, `false` or `null`
becomes a `Literal` carrying only the decoded value — in particular no
`raw` field — unlike every other literal builder (`BooleanLiteral`,
`Number`, `String`, `RegExp`), whose successful outputs all carry a `raw`
field with the original token text. -/
theorem c10_theorem :
    (∀ name : String, name = "true" ∨ name = "false" ∨ name = "null" →
      VariableNameU [vstr name]
        = Except.ok (jobj [("type", vstr "Literal"), ("value", jsonLitVal name)])
      ∧ hasField (jobj [("type", vstr "Literal"), ("value", jsonLitVal name)]) "raw" = false)
    ∧ (∀ (raw : String) (v : JSVal),
        BooleanLiteralU [vstr raw] = Except.ok v → hasField v "raw" = true)
    ∧ (∀ (raw : String) (v : JSVal),
        NumberU [vstr raw] = Except.ok v → hasField v "raw" = true)
    ∧ (∀ (raw : String) (v : JSVal),
        StringU [vstr raw] = Except.ok v → hasField v "raw" = true)
    ∧ (∀ (raw : String) (v : JSVal),
        RegExpU [vstr raw] = Except.ok v → hasField v "raw" = true)
    ∧ jsonLitVal "true" = vbool true ∧ jsonLitVal "false" = vbool false
    ∧ jsonLitVal "null" = vnull := by
  refine ⟨?_, ?_, ?_, ?_, ?_, by decide, by decide, by decide⟩
  · intro name h
    rcases h with h | h | h <;> subst h <;> exact ⟨by decide, by decide⟩
  · intro raw v h
    simp only [BooleanLiteralU, argD, List.getD, Except.ok.injEq] at h
    subst h
    rfl
  · intro raw v h
    simp only [NumberU, argD, List.getD, jsToString] at h
    split at h
    · split at h
      · simp only [Except.ok.injEq] at h
        subst h
        rfl
      · exact absurd h (by simp)
    · simp only [Except.ok.injEq] at h
      subst h
      rfl
  · intro raw v h
    simp only [StringU, argD, List.getD, jsToString] at h
    split at h
    · simp only [Except.ok.injEq] at h
      subst h
      rfl
    · exact absurd h (by simp)
  · intro raw v h
    simp only [RegExpU, argD, List.getD, jsToString] at h
    split at h
    · split at h
      · exact absurd h (by simp)
      · simp only [Except.ok.injEq] at h
        subst h
        rfl
    · exact absurd h (by simp)

/-- C10 witness: the keyword `true` and one successful decode of each other
literal builder. -/
theorem c10_witness :
    (VariableNameU [vstr "true"]
        = Except.ok (jobj [("type", vstr "Literal"), ("value", jsonLitVal "true")])
      ∧ hasField (jobj [("type", vstr "Literal"), ("value", jsonLitVal "true")]) "raw" = false)
    ∧ hasField (jobj [("type", vstr "Literal"), ("value", vbool false),
        ("raw", vstr "false")]) "raw" = true
    ∧ hasField (jobj [("type", vstr "Literal"), ("value", vnum (mkRat 7 1)),
        ("raw", vstr "7")]) "raw" = true
    ∧ hasField (jobj [("type", vstr "Literal"), ("value", vstr "a"),
        ("raw", vstr "\"a\"")]) "raw" = true
    ∧ hasField (jobj [("type", vstr "Literal"), ("raw", vstr "/a/g"),
        ("value", vregex "a" "g"),
        ("regex", jobj [("pattern", vstr "a"), ("flags", vstr "g")])]) "raw" = true :=
  ⟨c10_theorem.1 "true" (Or.inl rfl),
   c10_theorem.2.1 "false"
     (jobj [("type", vstr "Literal"), ("value", vbool false), ("raw", vstr "false")])
     (by decide),
   c10_theorem.2.2.1 "7"
     (jobj [("type", vstr "Literal"), ("value", vnum (mkRat 7 1)), ("raw", vstr "7")])
     (by decide),
   c10_theorem.2.2.2.1 "\"a\""
     (jobj [("type", vstr "Literal"), ("value", vstr "a"), ("raw", vstr "\"a\"")])
     (by decide),
   c10_theorem.2.2.2.2.1 "/a/g"
     (jobj [("type", vstr "Literal"), ("raw", vstr "/a/g"), ("value", vregex "a" "g"),
       ("regex", jobj [("pattern", vstr "a"), ("flags", vstr "g")])])
     (by decide)⟩

/-- C5 (corrected): when the `String` or `RegExp` decoder fails on a raw
token, the failure is the host engine's error — the SyntaxError thrown by
`eval` on the malformed literal, or, for a comment-shaped regular-expression
token, the TypeError from reading `.source` of `undefined` — never an
`InvalidLiteral` error; the source never constructs `InvalidLiteral`. -/
theorem c5_theorem (raw : String) (e : JSErr)
    (h : StringU [vstr raw] = Except.error e ∨ RegExpU [vstr raw] = Except.error e) :
    ((∃ m, e = JSErr.parseErr m)
      ∨ e = JSErr.typeErr "Cannot read properties of undefined (reading source)")
    ∧ ∀ s, e ≠ JSErr.invalidLiteral s := by
  have key : (∃ m, e = JSErr.parseErr m)
      ∨ e = JSErr.typeErr "Cannot read properties of undefined (reading source)" := by
    rcases h with h | h
    · simp only [StringU, argD, List.getD, jsToString] at h
      split at h
      · exact absurd h (by simp)
      · simp only [Except.error.injEq] at h
        exact Or.inl ⟨_, h.symm⟩
    · simp only [RegExpU, argD, List.getD, jsToString] at h
      split at h
      · split at h
        · simp only [Except.error.injEq] at h
          exact Or.inr h.symm
        · exact absurd h (by simp)
      · simp only [Except.error.injEq] at h
        exact Or.inl ⟨_, h.symm⟩
  refine ⟨key, ?_⟩
  intro s hcontra
  rcases key with ⟨m, rfl⟩ | rfl <;> simp at hcontra

/-- C5 witness: the theorem applied to the string token with the malformed
escape `\x`. -/
theorem c5_witness :
    ((∃ m, JSErr.parseErr "Invalid hexadecimal escape sequence" = JSErr.parseErr m)
      ∨ JSErr.parseErr "Invalid hexadecimal escape sequence"
          = JSErr.typeErr "Cannot read properties of undefined (reading source)")
    ∧ ∀ s, JSErr.parseErr "Invalid hexadecimal escape sequence"
        ≠ JSErr.invalidLiteral s :=
  c5_theorem "\"\\x\"" (JSErr.parseErr "Invalid hexadecimal escape sequence")
    (Or.inl (by decide))

/-- C5 counterexample: the claim "the String decoder fails with
InvalidLiteral … the RegExp decoder fails with InvalidLiteral (surfaced
with the offending raw text)" is false: the malformed escape `"\x"` and the
invalid pattern `/+/` and flags `/a/gg` all fail with the engine's
SyntaxError, not with `InvalidLiteral` carrying the raw text. -/
theorem c5_counterexample :
    StringU [vstr "\"\\x\""]
      = Except.error (JSErr.parseErr "Invalid hexadecimal escape sequence")
    ∧ StringU [vstr "\"\\x\""] ≠ Except.error (JSErr.invalidLiteral "\"\\x\"")
    ∧ RegExpU [vstr "/+/"]
        = Except.error (JSErr.parseErr "Invalid regular expression: nothing to repeat")
    ∧ RegExpU [vstr "/+/"] ≠ Except.error (JSErr.invalidLiteral "/+/")
    ∧ RegExpU [vstr "/a/gg"]
        = Except.error (JSErr.parseErr "Invalid regular expression flags")
    ∧ RegExpU [vstr "/a/gg"] ≠ Except.error (JSErr.invalidLiteral "/a/gg") := by decide
